import Mathlib

/-
Verification development for the phonebook client (React/Redux contact
manager with a remote REST API and an IndexedDB/localStorage fallback).

The repository ships two variants of the auth and contacts slices in the
same files, separated by a document marker:
  * variant 1 ("v1"): localStorage-based (authSlice lines 1-431,
    contactsSlice lines 1-112);
  * variant 2 ("v2"): IndexedDB-based (authSlice lines 432-1005, the
    unnamed contacts slice with ensureAuthHeader).
Definitions below carry a _v1 / _v2 suffix where the variants differ.

Conventions of the shallow embedding:
  * JS promises that resolve are `Except.ok` / plain values; rejections are
    `Except.error` carrying the `{status, data.message}` of the rejected
    `error.response` object.
  * `Option` models JS null/undefined; `Option String` models a possibly
    absent token, `Option PubUser` models the `{name: null, email: null}`
    empty-user sentinel (none) versus a populated user record (some).
  * Storage-layer failures (IndexedDB and its localStorage backup both
    throwing) are abstracted into one `storeOk : Bool` parameter on the
    mock API functions whose source wraps storage calls in try/catch.
  * `Date.now()` is passed in as an explicit `now : Nat` clock parameter.
  * JS `toLowerCase`/`trim`/`includes` are modelled character-wise with
    `Char.toLower`, `String.trim` and an explicit substring scan; this
    agrees with JS on the ASCII data the application handles.
-/

namespace Phonebook

/-- Check that `pat` occurs at the start of `hay` (character-wise `==`). -/
def subAt : List Char → List Char → Bool
  | [], _ => true
  | _ :: _, [] => false
  | a :: as, b :: bs => a == b && subAt as bs

/-- Check that `pat` occurs somewhere inside `hay` (JS `String.includes`). -/
def hasSub (pat : List Char) : List Char → Bool
  | [] => pat.isEmpty
  | c :: rest => subAt pat (c :: rest) || hasSub pat rest

/-- JS `s.includes(pat)`. -/
def strContains (s pat : String) : Bool := hasSub pat.data s.data

/-- JS `s.toLowerCase()` (ASCII-faithful). -/
def strToLower (s : String) : String := String.mk (s.data.map Char.toLower)

/-- JS `s.trim()`: drop leading and trailing whitespace. -/
def strTrim (s : String) : String :=
  String.mk (((s.data.dropWhile Char.isWhitespace).reverse.dropWhile Char.isWhitespace).reverse)

/-- JS `a || b` on nullable strings (model: first non-null wins). -/
def orElseStr (a b : Option String) : Option String :=
  match a with
  | some x => some x
  | none => b

/-- The `error.response` payload carried by a rejected API promise:
HTTP status plus `data.message`. -/
structure ApiError where
  status : Nat
  message : String
deriving DecidableEq, Repr

/-- Shape of an axios error as sniffed by the thunks: an optional
`error.response`, a truthy/falsy `error.request`, and the `message` and
`code` fields consulted by the network-error checks. -/
structure AxiosErr where
  response : Option ApiError
  request : Bool
  message : String
  code : String
deriving DecidableEq, Repr

/-- `error.response?.status === 401` check used by refreshUser (v2). -/
def respStatus401 (e : AxiosErr) : Bool :=
  match e.response with
  | some r => r.status == 401
  | none => false

/-- The repeated network-error classifier of the v2 thunks:
`error.request || error.message === 'Network Error' ||
 error.code === 'ERR_NETWORK' || error.code === 'ECONNABORTED' ||
 !error.response`. -/
def isNetworkErr (e : AxiosErr) : Bool :=
  e.request || e.message == "Network Error" || e.code == "ERR_NETWORK" ||
    e.code == "ECONNABORTED" || e.response.isNone

/-- Outcome of a remote (axios) call. -/
inductive RemoteOutcome (α : Type) where
  | ok (data : α)
  | err (e : AxiosErr)
deriving DecidableEq, Repr

/-- Outcome of a createAsyncThunk payload creator: fulfilled with a
payload, or rejected with the `rejectWithValue` payload. -/
inductive ThunkResult (α ε : Type) where
  | fulfilled (payload : α)
  | rejected (errPayload : ε)
deriving DecidableEq, Repr

/-- A user record persisted by the fallback register path
(`mockRegisterUser` stores the token inside the record). -/
structure MockUser where
  id : String
  name : String
  email : String
  token : String
deriving DecidableEq, Repr

/-- The `{id, name, email}` user shape returned to callers. -/
structure PubUser where
  id : String
  name : String
  email : String
deriving DecidableEq, Repr

/-- `dbFindUserByEmail`: first stored user with the given email. -/
def findUserByEmail (users : List MockUser) (email : String) : Option MockUser :=
  users.find? (fun u => u.email == email)

/-- `dbFindUserByToken`: first stored user with the given token. -/
def findUserByToken (users : List MockUser) (token : String) : Option MockUser :=
  users.find? (fun u => u.token == token)

/-- `mockRegisterUser` (src/services/mockApi.js lines 14-67): reject 409 when
the email already exists in the fallback store; otherwise synthesize a
user from the clock and persist it; a storage-layer throw becomes a 500.
Returns the public user, the token, and the updated store. -/
def mockRegisterUser (users : List MockUser) (name email : String) (now : Nat)
    (storeOk : Bool) : Except ApiError (PubUser × String × List MockUser) :=
  match findUserByEmail users email with
  | some _ => .error ⟨409, "User with this email already exists"⟩
  | none =>
    let newUser : MockUser :=
      ⟨toString now, name, email, "mock-jwt-token-" ++ toString now⟩
    if storeOk then
      .ok (⟨newUser.id, newUser.name, newUser.email⟩, newUser.token,
        users ++ [newUser])
    else .error ⟨500, "Failed to register user"⟩

/-- `mockLoginUser` (mockApi.js lines 69-114): reject 401 when no stored
user matches the email; otherwise resolve with that user, ignoring the
password ("we're not checking the password in mock"). -/
def mockLoginUser (users : List MockUser) (email : String) (_password : String) :
    Except ApiError (PubUser × String) :=
  match findUserByEmail users email with
  | none => .error ⟨401, "Invalid email or password"⟩
  | some u => .ok (⟨u.id, u.name, u.email⟩, u.token)

/-- `mockRefreshUser` (mockApi.js lines 206-245): look the user up by token;
reject 401 when absent, else resolve with the public user. -/
def mockRefreshUser (users : List MockUser) (token : String) :
    Except ApiError PubUser :=
  match findUserByToken users token with
  | none => .error ⟨401, "Invalid or expired token"⟩
  | some u => .ok ⟨u.id, u.name, u.email⟩

/-- A contact record `{id, name, number}`. -/
structure Contact where
  id : String
  name : String
  number : String
deriving DecidableEq, Repr

/-- The `{name, number}` payload a caller passes to add. -/
structure ContactInput where
  name : String
  number : String
deriving DecidableEq, Repr

/-- `mockAddContact` (mockApi.js lines 136-161): synthesize an id from the
clock and persist; if the storage write throws, the catch branch still
RESOLVES, with a null (`none`) payload and the store unchanged. The
promise never rejects, so the result is always `.ok`. -/
def mockAddContact (inp : ContactInput) (now : Nat) (storeOk : Bool)
    (db : List Contact) : Except ApiError (Option Contact × List Contact) :=
  let newContact : Contact := ⟨toString now, inp.name, inp.number⟩
  if storeOk then .ok (some newContact, db ++ [newContact])
  else .ok (none, db)

/-- `mockDeleteContact` (mockApi.js lines 163-203): reject 404 when no stored
contact has the id; otherwise delete by id and resolve with the id; a
storage-layer throw becomes a 500. -/
def mockDeleteContact (id : String) (storeOk : Bool) (db : List Contact) :
    Except ApiError (String × List Contact) :=
  if storeOk then
    if db.any (fun c => c.id == id) then
      .ok (id, db.filter (fun c => c.id != id))
    else .error ⟨404, "Contact not found"⟩
  else .error ⟨500, "Failed to delete contact"⟩

/-- `registerUser` thunk, v1 (authSlice.js lines 32-80): on ANY remote
failure the catch block replays the operation against the mock fallback;
when the fallback also fails, the mock error is surfaced first
(`mockError.response` is always present for mock register errors).
Returns the thunk result and the fallback user store after the call. -/
def registerUser_v1 (remote : RemoteOutcome (PubUser × String))
    (users : List MockUser) (name email : String) (now : Nat) (storeOk : Bool) :
    ThunkResult (PubUser × String) ApiError × List MockUser :=
  match remote with
  | .ok d => (.fulfilled d, users)
  | .err _ =>
    match mockRegisterUser users name email now storeOk with
    | .ok (u, tok, users') => (.fulfilled (u, tok), users')
    | .error me => (.rejected me, users)

/-- `loginUser` thunk, v1 (authSlice.js lines 83-131): same shape as
`registerUser_v1` — every remote failure replays against the mock login. -/
def loginUser_v1 (remote : RemoteOutcome (PubUser × String))
    (users : List MockUser) (email password : String) :
    ThunkResult (PubUser × String) ApiError :=
  match remote with
  | .ok d => .fulfilled d
  | .err _ =>
    match mockLoginUser users email password with
    | .ok d => .fulfilled d
    | .error me => .rejected me

/-- `addContact` thunk, v1 (contactsSlice.js lines 24-37): on any remote
failure, replay on `mockAddContact`; since the mock always resolves, the
catch branch that would surface `error.message` is unreachable. Returns
the thunk result (payload may be null) and the fallback contact store. -/
def addContact_v1 (remote : RemoteOutcome Contact) (inp : ContactInput)
    (now : Nat) (storeOk : Bool) (db : List Contact) :
    ThunkResult (Option Contact) String × List Contact :=
  match remote with
  | .ok c => (.fulfilled (some c), db)
  | .err e =>
    match mockAddContact inp now storeOk db with
    | .ok (p, db') => (.fulfilled p, db')
    | .error _ => (.rejected e.message, db)

/-- `deleteContact` thunk, v1 (contactsSlice.js lines 39-52): on any remote
failure, replay on `mockDeleteContact`; if the mock also rejects, the
surfaced payload is the ORIGINAL axios `error.message`. -/
def deleteContact_v1 (remote : RemoteOutcome String) (id : String)
    (storeOk : Bool) (db : List Contact) :
    ThunkResult String String × List Contact :=
  match remote with
  | .ok rid => (.fulfilled rid, db)
  | .err e =>
    match mockDeleteContact id storeOk db with
    | .ok (rid, db') => (.fulfilled rid, db')
    | .error _ => (.rejected e.message, db)

/-- Status field of the contacts slice:
`'idle' | 'loading' | 'succeeded' | 'failed'`. -/
inductive Status where
  | idle
  | loading
  | succeeded
  | failed
deriving DecidableEq, Repr

/-- State of the contacts slice. The error field holds the rejection
payload message (the slice stores `action.payload`). -/
structure ContactsState where
  items : List Contact
  filter : String
  status : Status
  error : Option String
deriving DecidableEq, Repr

/-- JS `state.items.push(action.payload)`: type-agnostic append, exactly as
the untyped reducer body behaves for any payload value (including null). -/
def pushPayload {α : Type} (items : List α) (payload : α) : List α :=
  items ++ [payload]

/-- `fetchContacts.pending` reducer. -/
def fetchContactsPending (s : ContactsState) : ContactsState :=
  { s with status := .loading, error := none }

/-- `fetchContacts.fulfilled` reducer: replaces items wholesale. -/
def fetchContactsFulfilled (s : ContactsState) (payload : List Contact) :
    ContactsState :=
  { s with status := .succeeded, items := payload }

/-- `fetchContacts.rejected` reducer (contactsSlice.js lines 78-81). -/
def fetchContactsRejected (s : ContactsState) (e : String) : ContactsState :=
  { s with status := .failed, error := some e }

/-- `addContact.pending` reducer. -/
def addContactPending (s : ContactsState) : ContactsState :=
  { s with status := .loading, error := none }

/-- `addContact.fulfilled` reducer (contactsSlice.js lines 87-90):
`state.items.push(action.payload)`. -/
def addContactFulfilled (s : ContactsState) (payload : Contact) : ContactsState :=
  { s with status := .succeeded, items := pushPayload s.items payload }

/-- `addContact.rejected` reducer (contactsSlice.js lines 91-94). -/
def addContactRejected (s : ContactsState) (e : String) : ContactsState :=
  { s with status := .failed, error := some e }

/-- `deleteContact.pending` reducer. -/
def deleteContactPending (s : ContactsState) : ContactsState :=
  { s with status := .loading, error := none }

/-- `deleteContact.fulfilled` reducer (contactsSlice.js lines 100-103):
`state.items.filter(item => item.id !== action.payload)`. -/
def deleteContactFulfilled (s : ContactsState) (id : String) : ContactsState :=
  { s with status := .succeeded, items := s.items.filter (fun item => item.id != id) }

/-- `deleteContact.rejected` reducer (contactsSlice.js lines 104-107). -/
def deleteContactRejected (s : ContactsState) (e : String) : ContactsState :=
  { s with status := .failed, error := some e }

/-- `updateFilter` reducer (contactsSlice.js lines 62-66). -/
def updateFilter (s : ContactsState) (value : String) : ContactsState :=
  { s with filter := value }

/-- One offline delete operation end to end (remote transport failure `e`,
then the v1 thunk with its mock fallback, then the matching reducer).
Returns the contacts slice state and the fallback store afterwards. -/
def deleteStepOffline (s : ContactsState) (e : AxiosErr) (id : String)
    (storeOk : Bool) (db : List Contact) : ContactsState × List Contact :=
  match deleteContact_v1 (.err e) id storeOk db with
  | (.fulfilled rid, db') => (deleteContactFulfilled (deleteContactPending s) rid, db')
  | (.rejected m, db') => (deleteContactRejected (deleteContactPending s) m, db')

/-- The duplicate check of `handleAddContact` (App.jsx lines 89-100):
`contacts.some(c => c.name.toLowerCase() === contact.name.trim().toLowerCase())`. -/
def nameExists (contacts : List Contact) (name : String) : Bool :=
  contacts.any (fun c => strToLower c.name == strToLower (strTrim name))

/-- Whether `handleAddContact` dispatches the add: the trimmed name is
non-empty and no case-insensitive duplicate exists in the collection. -/
def handleAddContactDispatches (contacts : List Contact) (inp : ContactInput) :
    Bool :=
  !(strTrim inp.name == "") && !(nameExists contacts inp.name)

/-- The displayed list (App.jsx lines 229-231):
`contacts.filter(c => c.name.toLowerCase().includes(filter.trim().toLowerCase()))`. -/
def shownContacts (contacts : List Contact) (filter : String) : List Contact :=
  contacts.filter
    (fun c => strContains (strToLower c.name) (strToLower (strTrim filter)))

/-- State of the auth slice. `user = none` models the
`{name: null, email: null}` empty sentinel. -/
structure AuthState where
  user : Option PubUser
  token : Option String
  isLoggedIn : Bool
  isRefreshing : Bool
  error : Option String
deriving DecidableEq, Repr

/-- The persisted stores shared by the v2 auth code: the localStorage
`auth_token` backup, the IndexedDB `auth_token` record, and the fallback
user store consulted by the mock API. -/
structure Storage where
  ls : Option String
  idb : Option String
  users : List MockUser
deriving DecidableEq, Repr

/-- Combined state of the session manager and its persistence. -/
structure World where
  auth : AuthState
  st : Storage
deriving DecidableEq, Repr

/-- `setAuthHeader` v2 (authSlice.js lines 440-460): with a token, save it
to IndexedDB (`dbSaveToken`); with null, remove it from IndexedDB AND its
localStorage backup (`dbRemoveToken`). -/
def setAuthHeader_v2 (t : Option String) (st : Storage) : Storage :=
  match t with
  | some tok => { st with idb := some tok }
  | none => { st with idb := none, ls := none }

/-- `getInitialState` v1 (authSlice.js lines 256-285): with a persisted
token, `isLoggedIn` is set to true immediately — with the cached user when
`auth_user` parses, with the empty user otherwise; without a token the
state is anonymous. -/
def getInitialState_v1 (lsToken : Option String) (lsUser : Option PubUser) :
    AuthState :=
  match lsToken with
  | some t =>
    match lsUser with
    | some u => ⟨some u, some t, true, false, none⟩
    | none => ⟨none, some t, true, false, none⟩
  | none => ⟨none, none, false, false, none⟩

/-- `getInitialState` v2 (authSlice.js lines 866-882): the token is
restored but `isLoggedIn` always starts false and `isRefreshing` true;
user data is only ever set by a fulfilled auth operation. -/
def getInitialState_v2 (lsToken : Option String) : AuthState :=
  ⟨none, lsToken, false, true, none⟩

/-- `refreshUser` thunk v2 (authSlice.js lines 723-793): resolve the token
from state, then localStorage, then IndexedDB; with no token reject
"No token available"; otherwise call the remote, falling back to
`mockRefreshUser` on a network error; a 401 (remote or mock) clears the
persisted token. Returns the thunk result and the storage afterwards. -/
def refreshUser_v2 (auth : AuthState) (st : Storage)
    (remote : RemoteOutcome PubUser) : ThunkResult PubUser String × Storage :=
  match orElseStr (orElseStr auth.token st.ls) st.idb with
  | none => (.rejected "No token available", st)
  | some t =>
    let st1 := setAuthHeader_v2 (some t) st
    match remote with
    | .ok u => (.fulfilled u, st1)
    | .err e =>
      if respStatus401 e then
        (.rejected "Invalid or expired token", setAuthHeader_v2 none st1)
      else if isNetworkErr e then
        match mockRefreshUser st1.users t with
        | .ok u => (.fulfilled u, st1)
        | .error me =>
          if me.status == 401 then
            (.rejected "Invalid or expired token", setAuthHeader_v2 none st1)
          else (.rejected "Failed to refresh user. Please try again.", st1)
      else (.rejected "Failed to refresh user. Please try again.", st1)

/-- `refreshUser.pending` reducer (v2). -/
def refreshPending (s : AuthState) : AuthState :=
  { s with isRefreshing := true, error := none }

/-- `refreshUser.fulfilled` reducer v2 (authSlice.js lines 963-975): set the
user, mark logged in, and if the state had no token restore it from
localStorage (`getTokenFromStorage`). -/
def refreshFulfilled (s : AuthState) (st : Storage) (u : PubUser) : AuthState :=
  { s with user := some u, isLoggedIn := true, isRefreshing := false, token := orElseStr s.token st.ls }

/-- `refreshUser.rejected` reducer v2 (authSlice.js lines 976-988): clear
the session only when the message mentions an invalid/expired/missing
token; keep it for other (network) errors. -/
def refreshRejected (s : AuthState) (msg : String) : AuthState :=
  let s1 := { s with isRefreshing := false }
  if strContains msg "Invalid" || strContains msg "expired" || strContains msg "No token" then
    { s1 with user := none, token := none, isLoggedIn := false }
  else s1

/-- One refresh operation end to end: pending reducer, thunk, then the
matching fulfilled/rejected reducer. -/
def refreshStep (w : World) (remote : RemoteOutcome PubUser) : World :=
  let s0 := refreshPending w.auth
  match refreshUser_v2 s0 w.st remote with
  | (.fulfilled u, st') => ⟨refreshFulfilled s0 st' u, st'⟩
  | (.rejected m, st') => ⟨refreshRejected s0 m, st'⟩

/-- `logoutUser.pending` reducer (v2). -/
def logoutPending (s : AuthState) : AuthState :=
  { s with error := none }

/-- `logoutUser.fulfilled` reducer v2 (authSlice.js lines 942-948): clear
user, token, and login flag. -/
def logoutFulfilled (s : AuthState) : AuthState :=
  { s with user := none, token := none, isLoggedIn := false, error := none }

/-- One logout operation end to end (v2, authSlice.js lines 668-720 plus
reducers): whatever the remote call does, the finally block clears the
persisted token (`setAuthHeader(null)`), the thunk always returns
success, and the fulfilled reducer clears the in-memory session. The
remote outcome parameter is deliberately ignored, as in the source. -/
def logoutStep (w : World) (_remote : RemoteOutcome Unit) : World :=
  ⟨logoutFulfilled (logoutPending w.auth), setAuthHeader_v2 none w.st⟩

/-! Helper lemmas shared by the claim theorems. -/

/-- Removing the elements matched by an id leaves `length - count` elements. -/
lemma length_filter_ne_add_countP (l : List Contact) (id : String) :
    (l.filter (fun c => c.id != id)).length + l.countP (fun c => c.id == id) = l.length := by
  induction l with
  | nil => rfl
  | cons c t ih =>
    simp only [List.filter_cons, List.countP_cons, bne] at ih ⊢
    cases h : c.id == id <;> simp [h] <;> omega

/-- A positive match count gives a positive `any`. -/
lemma any_of_countP_pos (p : Contact → Bool) (l : List Contact)
    (h : 0 < l.countP p) : l.any p = true :=
  List.any_eq_true.mpr (List.countP_pos_iff.mp h)

/-- Appending a fresh user with the looked-up email makes the lookup find it. -/
lemma findUserByEmail_append (users : List MockUser) (nu : MockUser) (email : String)
    (hnu : nu.email = email) (hnew : findUserByEmail users email = none) :
    findUserByEmail (users ++ [nu]) email = some nu := by
  unfold findUserByEmail at hnew ⊢
  rw [List.find?_append, hnew]
  simp [List.find?, hnu]

/-! Claim theorems. -/

/-- C9: whenever fetchContacts, addContact, or deleteContact rejects, the
rejected reducer (after the pending reducer of the same dispatch) leaves
the in-memory items and the filter exactly as they were; only the status
(now failed) and the error field change. -/
theorem rejected_reducers_preserve_items (s : ContactsState) (e : String) :
    ((fetchContactsRejected (fetchContactsPending s) e).items = s.items ∧
      (fetchContactsRejected (fetchContactsPending s) e).filter = s.filter ∧
      (fetchContactsRejected (fetchContactsPending s) e).status = Status.failed ∧
      (fetchContactsRejected (fetchContactsPending s) e).error = some e) ∧
    ((addContactRejected (addContactPending s) e).items = s.items ∧
      (addContactRejected (addContactPending s) e).filter = s.filter ∧
      (addContactRejected (addContactPending s) e).status = Status.failed ∧
      (addContactRejected (addContactPending s) e).error = some e) ∧
    ((deleteContactRejected (deleteContactPending s) e).items = s.items ∧
      (deleteContactRejected (deleteContactPending s) e).filter = s.filter ∧
      (deleteContactRejected (deleteContactPending s) e).status = Status.failed ∧
      (deleteContactRejected (deleteContactPending s) e).error = some e) :=
  ⟨⟨rfl, rfl, rfl, rfl⟩, ⟨rfl, rfl, rfl, rfl⟩, ⟨rfl, rfl, rfl, rfl⟩⟩

/-- C10: when the storage write of the Local Store fallback add throws,
`mockAddContact` still resolves (never rejects) but with a null payload
and an unchanged store; the add thunk therefore fulfills with null, and
the untyped push of the fulfilled reducer appends that null to the
collection instead of a contact record. -/
theorem fallback_add_null_payload (e : AxiosErr) (inp : ContactInput) (now : Nat)
    (db : List Contact) (items : List (Option Contact)) :
    mockAddContact inp now false db = .ok (none, db) ∧
    addContact_v1 (.err e) inp now false db = (.fulfilled none, db) ∧
    pushPayload items (none : Option Contact) = items ++ [none] :=
  ⟨rfl, rfl, rfl⟩

/-- C4: logout clears the in-memory session and the persisted token
(IndexedDB and the localStorage backup) regardless of the remote logout
outcome, and a subsequent refresh — whatever its remote outcome — finds
no token and leaves the session anonymous with no token. -/
theorem logout_then_refresh_anonymous (w : World) (r : RemoteOutcome Unit)
    (r2 : RemoteOutcome PubUser) :
    (logoutStep w r).auth.token = none ∧
    (logoutStep w r).auth.isLoggedIn = false ∧
    (logoutStep w r).auth.user = none ∧
    (logoutStep w r).st.ls = none ∧
    (logoutStep w r).st.idb = none ∧
    (refreshStep (logoutStep w r) r2).auth.token = none ∧
    (refreshStep (logoutStep w r) r2).auth.isLoggedIn = false ∧
    (refreshStep (logoutStep w r) r2).auth.user = none :=
  ⟨rfl, rfl, rfl, rfl, rfl, rfl, rfl, rfl⟩

/-- C3 counterexample: in the v1 auth slice, merely finding a token in
persistent storage at startup DOES by itself make isLoggedIn true — here
with no cached user and no user fetch having ever succeeded. -/
theorem initialState_v1_token_means_loggedIn :
    (getInitialState_v1 (some "tok") none).isLoggedIn = true ∧
    (getInitialState_v1 (some "tok") none).user = none :=
  ⟨rfl, rfl⟩

/-- C3 amended: in the v1 auth slice, startup sets isLoggedIn exactly when
a token was found in storage (no user fetch needed); in the v2 auth slice,
startup always yields isLoggedIn false and isRefreshing true, so there a
persisted token alone never makes isLoggedIn true. -/
theorem initialState_loggedIn_policy (lsToken : Option String)
    (lsUser : Option PubUser) :
    (getInitialState_v1 lsToken lsUser).isLoggedIn = lsToken.isSome ∧
    (getInitialState_v2 lsToken).isLoggedIn = false ∧
    (getInitialState_v2 lsToken).isRefreshing = true := by
  refine ⟨?_, rfl, rfl⟩
  cases lsToken <;> cases lsUser <;> rfl

/-- C8 counterexample: with filter text " Bob" the displayed list keeps the
contact named "Bob", although "Bob" does not contain " Bob" as a
case-insensitive substring — the code matches against the TRIMMED filter. -/
theorem shown_untrimmed_mismatch :
    shownContacts [⟨"1", "Bob", "459-12-56"⟩] " Bob" = [⟨"1", "Bob", "459-12-56"⟩] ∧
    strContains (strToLower "Bob") (strToLower " Bob") = false := by
  constructor
  · decide
  · decide

/-- C8 amended: the displayed list is exactly the contacts whose name
contains the TRIMMED filter text as a case-insensitive substring; the
computation is a pure filter, so it yields a sublist and leaves the
collection itself untouched, and it is a function of the current filter
text alone. -/
theorem shown_iff_trimmed_substring (contacts : List Contact) (filt : String)
    (c : Contact) :
    (c ∈ shownContacts contacts filt ↔
      c ∈ contacts ∧ strContains (strToLower c.name) (strToLower (strTrim filt)) = true) ∧
    (shownContacts contacts filt).Sublist contacts :=
  ⟨List.mem_filter, List.filter_sublist contacts⟩

/-- C5: when the View-layer guard passes (trimmed name non-empty, name
previously unseen case-insensitively in the in-memory collection), a
successful fallback add synthesizes a contact whose name and number equal
the inputs exactly, appends it to the Local Store, and the fulfilled
reducer appends it to the in-memory collection, growing it by exactly 1. -/
theorem add_unseen_appends_exact (s : ContactsState) (inp : ContactInput)
    (now : Nat) (db : List Contact)
    (hdisp : handleAddContactDispatches s.items inp = true) :
    mockAddContact inp now true db =
      .ok (some ⟨toString now, inp.name, inp.number⟩,
        db ++ [⟨toString now, inp.name, inp.number⟩]) ∧
    (addContactFulfilled s ⟨toString now, inp.name, inp.number⟩).items =
      s.items ++ [⟨toString now, inp.name, inp.number⟩] ∧
    (addContactFulfilled s ⟨toString now, inp.name, inp.number⟩).items.length =
      s.items.length + 1 ∧
    (Contact.mk (toString now) inp.name inp.number).name = inp.name ∧
    (Contact.mk (toString now) inp.name inp.number).number = inp.number := by
  refine ⟨rfl, rfl, ?_, rfl, rfl⟩
  simp [addContactFulfilled, pushPayload]

/-- C5 witness: adding "Bob" to an empty collection at clock 7. -/
theorem add_unseen_appends_exact_witness :
    handleAddContactDispatches ([] : List Contact) ⟨"Bob", "555-1234"⟩ = true ∧
    (addContactFulfilled ⟨[], "", Status.idle, none⟩
        ⟨toString 7, "Bob", "555-1234"⟩).items.length =
      ([] : List Contact).length + 1 :=
  ⟨by decide,
    (add_unseen_appends_exact ⟨[], "", Status.idle, none⟩ ⟨"Bob", "555-1234"⟩ 7 []
      (by decide)).2.2.1⟩

/-- C6: offline delete against a store synced with the in-memory items.
When the id is present (exactly once — ids are unique, set semantics keyed
by id), the post-state collection and the store exclude the id and shrink
by exactly 1. When the id is absent, the fallback rejects with the 404
ValidationError "Contact not found" and neither the collection nor the
store changes. -/
theorem delete_present_absent (s1 s2 : ContactsState) (id1 id2 : String)
    (e : AxiosErr)
    (h1 : s1.items.countP (fun c => c.id == id1) = 1)
    (h2 : s2.items.any (fun c => c.id == id2) = false) :
    ((deleteStepOffline s1 e id1 true s1.items).1.items =
        s1.items.filter (fun c => c.id != id1) ∧
      (deleteStepOffline s1 e id1 true s1.items).1.items.all
        (fun c => c.id != id1) = true ∧
      (deleteStepOffline s1 e id1 true s1.items).1.items.length + 1 =
        s1.items.length ∧
      (deleteStepOffline s1 e id1 true s1.items).2 =
        s1.items.filter (fun c => c.id != id1) ∧
      (deleteStepOffline s1 e id1 true s1.items).1.status = Status.succeeded) ∧
    (mockDeleteContact id2 true s2.items = .error ⟨404, "Contact not found"⟩ ∧
      (deleteStepOffline s2 e id2 true s2.items).1.items = s2.items ∧
      (deleteStepOffline s2 e id2 true s2.items).2 = s2.items ∧
      (deleteStepOffline s2 e id2 true s2.items).1.status = Status.failed) := by
  have hany : s1.items.any (fun c => c.id == id1) = true :=
    any_of_countP_pos _ _ (by omega)
  have hmock1 : mockDeleteContact id1 true s1.items =
      .ok (id1, s1.items.filter (fun c => c.id != id1)) := by
    simp [mockDeleteContact, hany]
  have hmock2 : mockDeleteContact id2 true s2.items =
      .error ⟨404, "Contact not found"⟩ := by
    simp [mockDeleteContact, h2]
  constructor
  · have hlen := length_filter_ne_add_countP s1.items id1
    refine ⟨?_, ?_, ?_, ?_, ?_⟩ <;>
      simp [deleteStepOffline, deleteContact_v1, hmock1, deleteContactFulfilled,
        deleteContactPending, List.all_eq_true]
    omega
  · refine ⟨hmock2, ?_, ?_, ?_⟩ <;>
      simp [deleteStepOffline, deleteContact_v1, hmock2, deleteContactRejected,
        deleteContactPending]

/-- C6 witness: deleting the only contact succeeds and shrinks the
collection to 0; deleting an unknown id from an empty collection is the
404 ValidationError. -/
theorem delete_present_absent_witness :
    (⟨[⟨"1", "Bob", "555"⟩], "", Status.idle, none⟩ :
        ContactsState).items.countP (fun c => c.id == "1") = 1 ∧
    (⟨[], "", Status.idle, none⟩ : ContactsState).items.any
      (fun c => c.id == "9") = false ∧
    (deleteStepOffline ⟨[⟨"1", "Bob", "555"⟩], "", Status.idle, none⟩
          ⟨none, true, "Network Error", ""⟩ "1" true
          [⟨"1", "Bob", "555"⟩]).1.items.length + 1 = 1 ∧
    mockDeleteContact "9" true ([] : List Contact) =
      .error ⟨404, "Contact not found"⟩ :=
  ⟨by decide, by decide,
    (delete_present_absent ⟨[⟨"1", "Bob", "555"⟩], "", Status.idle, none⟩
        ⟨[], "", Status.idle, none⟩ "1" "9" ⟨none, true, "Network Error", ""⟩
        (by decide) (by decide)).1.2.2.1,
    (delete_present_absent ⟨[⟨"1", "Bob", "555"⟩], "", Status.idle, none⟩
        ⟨[], "", Status.idle, none⟩ "1" "9" ⟨none, true, "Network Error", ""⟩
        (by decide) (by decide)).2.1⟩

/-- C7: while the remote is unreachable, registering an email unseen in the
fallback store succeeds via `mockRegisterUser` with a synthesized id and a
non-empty token, persisting the user; afterwards `mockLoginUser` succeeds
for that email with ANY password, and fails with the 401 AuthError for an
email still absent from the fallback store. -/
theorem register_login_offline (users : List MockUser)
    (name email p other op : String) (now : Nat)
    (hnew : findUserByEmail users email = none)
    (hother : findUserByEmail
      (users ++ [⟨toString now, name, email, "mock-jwt-token-" ++ toString now⟩])
      other = none) :
    mockRegisterUser users name email now true =
      .ok (⟨toString now, name, email⟩, "mock-jwt-token-" ++ toString now,
        users ++ [⟨toString now, name, email, "mock-jwt-token-" ++ toString now⟩]) ∧
    ("mock-jwt-token-" ++ toString now) ≠ "" ∧
    mockLoginUser
        (users ++ [⟨toString now, name, email, "mock-jwt-token-" ++ toString now⟩])
        email p =
      .ok (⟨toString now, name, email⟩, "mock-jwt-token-" ++ toString now) ∧
    mockLoginUser
        (users ++ [⟨toString now, name, email, "mock-jwt-token-" ++ toString now⟩])
        other op =
      .error ⟨401, "Invalid email or password"⟩ := by
  have hfound := findUserByEmail_append users
    ⟨toString now, name, email, "mock-jwt-token-" ++ toString now⟩ email rfl hnew
  refine ⟨?_, ?_, ?_, ?_⟩
  · simp [mockRegisterUser, hnew]
  · intro h
    rw [String.ext_iff] at h
    simp [String.data_append] at h
  · simp [mockLoginUser, hfound]
  · simp [mockLoginUser, hother]

/-- C7 witness: registering ann@x.com offline at clock 5, then logging in
with an arbitrary password; bob@x.com stays unknown. -/
theorem register_login_offline_witness :
    findUserByEmail ([] : List MockUser) "ann@x.com" = none ∧
    findUserByEmail [⟨toString 5, "Ann", "ann@x.com",
      "mock-jwt-token-" ++ toString 5⟩] "bob@x.com" = none ∧
    mockLoginUser [⟨toString 5, "Ann", "ann@x.com",
        "mock-jwt-token-" ++ toString 5⟩] "ann@x.com" "anything" =
      .ok (⟨toString 5, "Ann", "ann@x.com"⟩, "mock-jwt-token-" ++ toString 5) :=
  ⟨by decide, by decide,
    (register_login_offline [] "Ann" "ann@x.com" "anything" "bob@x.com" "pw" 5
      (by decide) (by decide)).2.2.1⟩

/-- C1 counterexample: the remote rejects the registration with HTTP 409
(a ValidationError), yet the v1 thunk replays the operation against the
Local Store fallback, fulfills with the fallback's synthesized user, and
writes that user into the fallback store — the validation error is not
surfaced and the fallback path is taken. -/
theorem register_409_replays_fallback :
    registerUser_v1
        (.err ⟨some ⟨409, "User with this email already exists"⟩, true,
          "Request failed with status code 409", ""⟩)
        [] "Ann" "ann@x.com" 7 true =
      (.fulfilled (⟨"7", "Ann", "ann@x.com"⟩, "mock-jwt-token-7"),
        [⟨"7", "Ann", "ann@x.com", "mock-jwt-token-7"⟩]) := by
  decide

/-- C1 amended: in the v1 thunks, EVERY remote failure — including a
ValidationError response (HTTP 400/404/409) — replays the operation
against the Local Store fallback; when the fallback succeeds, the
operation is fulfilled from the fallback and the remote's error is never
surfaced. (Only when the fallback also fails is an error surfaced, with
the fallback's error taking precedence.) -/
theorem validation_error_replays_fallback (st : Nat) (msg : String)
    (e : AxiosErr) (users : List MockUser) (name email p : String) (now : Nat)
    (inp : ContactInput) (db : List Contact)
    (hs : st = 400 ∨ st = 404 ∨ st = 409)
    (he : e.response = some ⟨st, msg⟩)
    (hnew : findUserByEmail users email = none) :
    registerUser_v1 (.err e) users name email now true =
      (.fulfilled (⟨toString now, name, email⟩, "mock-jwt-token-" ++ toString now),
        users ++ [⟨toString now, name, email, "mock-jwt-token-" ++ toString now⟩]) ∧
    loginUser_v1 (.err e)
        (users ++ [⟨toString now, name, email, "mock-jwt-token-" ++ toString now⟩])
        email p =
      .fulfilled (⟨toString now, name, email⟩, "mock-jwt-token-" ++ toString now) ∧
    addContact_v1 (.err e) inp now true db =
      (.fulfilled (some ⟨toString now, inp.name, inp.number⟩),
        db ++ [⟨toString now, inp.name, inp.number⟩]) := by
  have hfound := findUserByEmail_append users
    ⟨toString now, name, email, "mock-jwt-token-" ++ toString now⟩ email rfl hnew
  refine ⟨?_, ?_, ?_⟩
  · simp [registerUser_v1, mockRegisterUser, hnew]
  · simp [loginUser_v1, mockLoginUser, hfound]
  · simp [addContact_v1, mockAddContact]

/-- C1 amended witness: a 409 response with an unseen email at clock 7. -/
theorem validation_error_replays_fallback_witness :
    ((409 : Nat) = 400 ∨ (409 : Nat) = 404 ∨ (409 : Nat) = 409) ∧
    (AxiosErr.mk (some ⟨409, "dup"⟩) true "Request failed" "").response =
      some ⟨409, "dup"⟩ ∧
    findUserByEmail ([] : List MockUser) "ann@x.com" = none ∧
    registerUser_v1 (.err ⟨some ⟨409, "dup"⟩, true, "Request failed", ""⟩)
        [] "Ann" "ann@x.com" 7 true =
      (.fulfilled (⟨toString 7, "Ann", "ann@x.com"⟩, "mock-jwt-token-" ++ toString 7),
        [] ++ [⟨toString 7, "Ann", "ann@x.com", "mock-jwt-token-" ++ toString 7⟩]) :=
  ⟨by decide, by decide, by decide,
    (validation_error_replays_fallback 409 "dup"
      ⟨some ⟨409, "dup"⟩, true, "Request failed", ""⟩ [] "Ann" "ann@x.com" "pw" 7
      ⟨"Bob", "555"⟩ [] (by decide) (by decide) (by decide)).1⟩

/-- C2 counterexample: a persisted token (in localStorage) with the remote
unreachable, but with no matching user in the fallback store — the
situation after a login against the real API. The mock lookup rejects
with 401, the code clears the persisted token, and the rejected reducer
logs the user out: the final state is anonymous, not authenticated. -/
theorem refresh_transport_can_log_out :
    (refreshStep ⟨⟨none, none, false, false, none⟩, ⟨some "tok", none, []⟩⟩
        (.err ⟨none, true, "Network Error", "ERR_NETWORK"⟩)).auth.isLoggedIn = false ∧
    (refreshStep ⟨⟨none, none, false, false, none⟩, ⟨some "tok", none, []⟩⟩
        (.err ⟨none, true, "Network Error", "ERR_NETWORK"⟩)).auth.token = none ∧
    (refreshStep ⟨⟨none, none, false, false, none⟩, ⟨some "tok", none, []⟩⟩
        (.err ⟨none, true, "Network Error", "ERR_NETWORK"⟩)).st.ls = none ∧
    (refreshStep ⟨⟨none, none, false, false, none⟩, ⟨some "tok", none, []⟩⟩
        (.err ⟨none, true, "Network Error", "ERR_NETWORK"⟩)).st.idb = none := by
  decide

/-- C2 amended: refresh with a persisted token while the remote is
unreachable keeps the session authenticated with the cached user and does
not clear the token, PROVIDED the token matches a user record in the
Local Store fallback; the persisted token survives in IndexedDB and the
state token keeps its state-or-localStorage value. -/
theorem refresh_transport_keeps_session (w : World) (e : AxiosErr)
    (t : String) (mu : MockUser)
    (htok : orElseStr (orElseStr w.auth.token w.st.ls) w.st.idb = some t)
    (hresp : e.response = none)
    (hfind : findUserByToken w.st.users t = some mu) :
    (refreshStep w (.err e)).auth.isLoggedIn = true ∧
    (refreshStep w (.err e)).auth.user = some ⟨mu.id, mu.name, mu.email⟩ ∧
    (refreshStep w (.err e)).auth.isRefreshing = false ∧
    (refreshStep w (.err e)).auth.token = orElseStr w.auth.token w.st.ls ∧
    (refreshStep w (.err e)).st.idb = some t ∧
    (refreshStep w (.err e)).st.ls = w.st.ls := by
  have hmock : mockRefreshUser w.st.users t = .ok ⟨mu.id, mu.name, mu.email⟩ := by
    simp [mockRefreshUser, hfind]
  have hnet : isNetworkErr e = true := by
    simp [isNetworkErr, hresp]
  have h401 : respStatus401 e = false := by
    simp [respStatus401, hresp]
  refine ⟨?_, ?_, ?_, ?_, ?_, ?_⟩ <;>
    simp [refreshStep, refreshUser_v2, refreshPending, refreshFulfilled,
      setAuthHeader_v2, htok, hmock, hnet, h401]

/-- C2 amended witness: the token sits in IndexedDB and matches the
fallback-registered user Ann; a transport failure keeps her logged in. -/
theorem refresh_transport_keeps_session_witness :
    orElseStr (orElseStr (none : Option String) none) (some "tok") = some "tok" ∧
    (AxiosErr.mk none true "Network Error" "ERR_NETWORK").response = none ∧
    findUserByToken [⟨"1", "Ann", "ann@x.com", "tok"⟩] "tok" =
      some ⟨"1", "Ann", "ann@x.com", "tok"⟩ ∧
    (refreshStep ⟨⟨none, none, false, false, none⟩,
        ⟨none, some "tok", [⟨"1", "Ann", "ann@x.com", "tok"⟩]⟩⟩
        (.err ⟨none, true, "Network Error", "ERR_NETWORK"⟩)).auth.isLoggedIn = true :=
  ⟨by decide, by decide, by decide,
    (refresh_transport_keeps_session
      ⟨⟨none, none, false, false, none⟩,
        ⟨none, some "tok", [⟨"1", "Ann", "ann@x.com", "tok"⟩]⟩⟩
      ⟨none, true, "Network Error", "ERR_NETWORK"⟩ "tok"
      ⟨"1", "Ann", "ann@x.com", "tok"⟩ (by decide) (by decide) (by decide)).1⟩

end Phonebook
